import Mathlib

/-!
Shallow embedding of `src/SkillRadarDashboard.tsx` (the SkillRadarDashboard
React component): data model, score validation, store mutation, derived chart
views and the PDF report generator, together with theorems settling the
specification claims.

Conventions of the embedding:
* JavaScript numbers carrying scores are modelled as rationals (`ℚ`);
  a possibly-NaN number is modelled as `Option ℚ` with `none` for NaN.
* `Number(val)` on strings matching the component's input regex is modelled
  exactly (`jsNumber`): `""` parses to `0`, `"."` to NaN, otherwise to the
  decimal value of the digits.
* `toFixed(2)` followed by unary plus is modelled by `round2` (round half
  towards positive infinity at two decimals, matching `toFixed` tie-breaking).
* The jsPDF drawing surface is modelled as a list of emitted drawing
  operations (`Op`); the external `splitTextToSize` text wrapper and the
  `toLocaleString` date formatter are abstract function parameters.
-/

/-- Embedding of the `Skill` record type (lines 21-28 of the source).
`iteration_depth` is optional because the source displays it through
`item.iteration_depth ?? "N/A"`; `ai_flagged` is declared optional. -/
structure Skill where
  skill : String
  score : ℚ
  code_snippets : List String
  timestamps : List String
  iteration_depth : Option Nat
  ai_flagged : Option Bool
deriving Repr, DecidableEq, Inhabited

/-- The record list returned by the mock API `fetchSkills` (lines 31-60). -/
def fetchSkillsData : List Skill :=
  [ { skill := "Algorithms", score := 15/2,
      code_snippets := ["function add(a, b) \x7b return a + b; \x7d"],
      timestamps := ["2025-08-06T13:45Z", "2025-08-06T14:30Z"],
      iteration_depth := some 3, ai_flagged := some true },
    { skill := "Data Structures", score := 41/5,
      code_snippets := ["class Stack \x7b constructor() \x7b this.items = []; \x7d \x7d"],
      timestamps := ["2025-08-06T11:00Z", "2025-08-06T12:30Z"],
      iteration_depth := some 2, ai_flagged := some false },
    { skill := "System Design", score := 51/10,
      code_snippets := [], timestamps := [],
      iteration_depth := some 4, ai_flagged := some true } ]

/-- Test of the input regex `/^\d*\.?\d*$/` (line 81): the string consists of
digit characters with at most one decimal point anywhere.  All three parts of
the regex are optional, so the empty string passes. -/
def formatOk (s : String) : Bool :=
  s.toList.all (fun c => c.isDigit || c = '.') &&
    (s.toList.filter (fun c => c = '.')).length ≤ 1

/-- Numeric value of a list of decimal digit characters, most significant
first; the empty list has value 0 (as for JavaScript `Number("")`). -/
def parseDigits (l : List Char) : Nat :=
  l.foldl (fun acc c => 10 * acc + (c.toNat - 48)) 0

/-- Embedding of JavaScript `Number(val)` (line 85) on the strings reaching it
(those passing `formatOk`): `none` models NaN.  The empty string converts to
0; a lone `"."` (no digits at all) is NaN; otherwise the value is the decimal
number written by the digits around the optional point. -/
def jsNumber (s : String) : Option ℚ :=
  if formatOk s then
    let l := s.toList
    if l.all (fun c => c.isDigit) then
      some (parseDigits l)
    else
      let intPart := l.takeWhile (fun c => c ≠ '.')
      let fracPart := (l.dropWhile (fun c => c ≠ '.')).drop 1
      if intPart.isEmpty && fracPart.isEmpty then
        none
      else
        some (parseDigits intPart + parseDigits fracPart / 10 ^ fracPart.length)
  else none

/-- The spec's validation-error taxonomy, mapped onto the two error messages
set by `handleInput`: `notNumeric` is `setError("Numbers only")` (line 82)
and `outOfRange` is `setError("Value must be 0–10")` (line 87). -/
inductive ValidationError
  | notNumeric
  | outOfRange
deriving Repr, DecidableEq

/-- Embedding of the validation part of `handleInput` (lines 78-92): the
regex test, then the `isNaN(num) || num < 0 || num > 10` guard; on success
the parsed value is the one handed to `onChange`. -/
def validate (val : String) : Except ValidationError ℚ :=
  if ¬ formatOk val then
    .error .notNumeric
  else
    match jsNumber val with
    | none => .error .outOfRange
    | some num =>
        if num < 0 ∨ num > 10 then .error .outOfRange
        else .ok num

/-- Embedding of `handleSkillScoreChange` (lines 222-233) acting on the
`skills` state: NaN (`none`) or out-of-range candidates return early with no
state change; otherwise the record at `idx` gets the clamped score
`Math.max(0, Math.min(10, newScore))` and every other record is copied
unchanged. -/
def handleSkillScoreChange (skills : List Skill) (idx : Nat)
    (newScore : Option ℚ) : List Skill :=
  match newScore with
  | none => skills
  | some q =>
      if q < 0 ∨ q > 10 then skills
      else
        skills.mapIdx (fun i item =>
          if i = idx then { item with score := max 0 (min 10 q) } else item)

/-- The full input path of `SkillEditRow` for the row at `idx`: `handleInput`
validates the raw string and, only on success, calls `onChange(num)`, which
the dashboard wires to `handleSkillScoreChange(idx, num)` (line 272). -/
def handleInputCommit (skills : List Skill) (idx : Nat) (val : String) :
    List Skill :=
  match validate val with
  | .ok num => handleSkillScoreChange skills idx (some num)
  | .error _ => skills

/-- Embedding of the initial-load effect (lines 134-147): on a successful
fetch the collection is replaced by the fetched data and the error message
cleared; on a failed fetch the collection is left alone and the error message
set.  The returned pair is (skills, error). -/
def initialLoad (result : Except String (List Skill))
    (skills : List Skill) : List Skill × String :=
  match result with
  | .ok data => (data, "")
  | .error _ => (skills, "Failed to load skills. Please try again later.")

/-- Radar chart point (the shape produced at lines 159-162). -/
structure RadarPoint where
  skill : String
  score : ℚ
deriving Repr, DecidableEq, Inhabited

/-- Trend chart point (the shape produced at lines 165-169). -/
structure TrendPoint where
  skill : String
  first : ℚ
  last : ℚ
deriving Repr, DecidableEq, Inhabited

/-- Embedding of `radarData` (lines 159-162). -/
def radarData (skills : List Skill) : List RadarPoint :=
  skills.map (fun item => ⟨item.skill, item.score⟩)

/-- Rounding to two decimals: model of JavaScript `+x.toFixed(2)`.  `toFixed`
rounds to the nearest hundredth choosing the larger value on ties, which is
exactly `round` (round half towards positive infinity) at scale 100. -/
def round2 (q : ℚ) : ℚ :=
  (round (100 * q) : ℚ) / 100

/-- Embedding of `trendData` (lines 165-169):
`first = Math.max(0, +(item.score - 1).toFixed(2))` and
`last = +item.score.toFixed(2)`. -/
def trendData (skills : List Skill) : List TrendPoint :=
  skills.map (fun item =>
    ⟨item.skill, max 0 (round2 (item.score - 1)), round2 item.score⟩)

/-- One drawing operation sent to the jsPDF document in `exportPDF`.  Text
operations record the string and the (x, y) position; `newPage` is
`doc.addPage()`. -/
inductive Op
  | setFontSize (n : Nat)
  | setFont (style : String)
  | setTextColor (r g b : Nat)
  | text (s : String) (x y : Nat)
  | newPage
deriving Repr, DecidableEq

/-- Emission of one snippet line per wrapped line (lines 203-206): each line
is drawn at x = 14 and advances the cursor by 5. -/
def emitLines (lines : List String) (y : Nat) : List Op × Nat :=
  match lines with
  | [] => ([], y)
  | l :: rest =>
      let next := emitLines rest (y + 5)
      (Op.text l 14 y :: next.1, next.2)

/-- Emission of all code snippets (lines 201-207): each snippet is wrapped by
the external `doc.splitTextToSize(code, 180)`, modelled by the abstract
parameter `split`, and its lines are emitted in order. -/
def emitSnippets (split : String → List String) (codes : List String)
    (y : Nat) : List Op × Nat :=
  match codes with
  | [] => ([], y)
  | c :: rest =>
      let first := emitLines (split c) y
      let next := emitSnippets split rest first.2
      (first.1 ++ next.1, next.2)

/-- Display of the iteration depth (line 190): the number, or "N/A" through
`?? "N/A"` when absent. -/
def iterationDepthText (d : Option Nat) : String :=
  match d with
  | some n => toString n
  | none => "N/A"

/-- Display of the attempts line (line 188): formatted timestamps joined by
the arrow separator when non-empty, otherwise "N/A".  The external
`new Date(t).toLocaleString()` formatter is the abstract parameter `fmt`. -/
def attemptsText (fmt : String → String) (timestamps : List String) : String :=
  if timestamps.isEmpty then "N/A"
  else String.intercalate " → " (timestamps.map fmt)

/-- Emission of one per-skill detail section (lines 184-212), from the bold
header through the trailing 2-unit gap.  Returns the drawing operations of
the section and the cursor position after it.  No page break is ever emitted
here: the break check happens only after the section, in `emitSections`. -/
def emitSection (split : String → List String) (fmt : String → String)
    (item : Skill) (y : Nat) : List Op × Nat :=
  let header := [Op.setFont "bold", Op.text (item.skill ++ " Details") 10 y,
    Op.setFont "normal"]
  let y1 := y + 6
  let attempts := [Op.text ("Attempts: " ++ attemptsText fmt item.timestamps) 12 y1]
  let y2 := y1 + 6
  let depth := [Op.text ("Iteration Depth: " ++
    iterationDepthText item.iteration_depth) 12 y2]
  let y3 := y2 + 6
  let flaggedPart :=
    if item.ai_flagged = some true then
      ([Op.setTextColor 255 0 0, Op.text "AI/Plagiarism Suspected" 12 y3,
        Op.setTextColor 0 0 0], y3 + 6)
    else ([], y3)
  let y4 := flaggedPart.2
  let label := [Op.text "Code Snippets:" 12 y4]
  let y5 := y4 + 6
  let snippetsPart :=
    if item.code_snippets.isEmpty then ([Op.text "N/A" 14 y5], y5 + 6)
    else emitSnippets split item.code_snippets y5
  (header ++ attempts ++ depth ++ flaggedPart.1 ++ label ++ snippetsPart.1,
    snippetsPart.2 + 2)

/-- Emission of all detail sections with the page-break policy (lines
183-217): after each section, `if (y > 270 && idx < skills.length - 1)` a
page break is emitted and the cursor resets to the top margin 15.
`idx < skills.length - 1` is the statement that the remaining list is
non-empty. -/
def emitSections (split : String → List String) (fmt : String → String) :
    List Skill → Nat → List Op
  | [], _ => []
  | item :: rest, y =>
      let sec := emitSection split fmt item y
      if sec.2 > 270 ∧ ¬ rest.isEmpty then
        sec.1 ++ Op.newPage :: emitSections split fmt rest 15
      else
        sec.1 ++ emitSections split fmt rest sec.2

/-- Emission of the title-block score lines (lines 178-181): one line per
radar point at x = 10, cursor advancing by 8 per line. -/
def emitScoreLines (points : List RadarPoint) (y : Nat) : List Op × Nat :=
  match points with
  | [] => ([], y)
  | d :: rest =>
      let next := emitScoreLines rest (y + 8)
      (Op.text (d.skill ++ ": " ++ toString d.score ++ "/10") 10 y :: next.1,
        next.2)

/-- Embedding of `exportPDF` (lines 172-219) as the list of drawing
operations it sends to the document: the heading at (10, 15), the score
summary from `radarData` starting at y = 25, a 5-unit gap, then the detail
sections. -/
def exportPDF (split : String → List String) (fmt : String → String)
    (skills : List Skill) : List Op :=
  let title := [Op.setFontSize 18, Op.text "Skill Radar Report" 10 15,
    Op.setFontSize 12]
  let summary := emitScoreLines (radarData skills) 25
  title ++ summary.1 ++ emitSections split fmt skills (summary.2 + 5)

/-- State of the dashboard component relevant to the core: the skill
collection and the load-error message. -/
structure DashState where
  skills : List Skill
  error : String
deriving Repr, DecidableEq

/-- Events the dashboard handles through the embedded core paths. -/
inductive Event
  | input (idx : Nat) (val : String)
  | exportReport
  | loadResult (result : Except String (List Skill))

/-- One step of the dashboard: routes each event to the embedded handler and
collects the drawing operations produced (only the export produces any).
`input` runs the `SkillEditRow` validation path into
`handleSkillScoreChange`; `exportReport` runs `exportPDF`, which only reads
the state; `loadResult` runs the initial-load effect. -/
def step (split : String → List String) (fmt : String → String)
    (st : DashState) : Event → DashState × List Op
  | .input idx val => ({ st with skills := handleInputCommit st.skills idx val }, [])
  | .exportReport => (st, exportPDF split fmt st.skills)
  | .loadResult result =>
      let loaded := initialLoad result st.skills
      ({ skills := loaded.1, error := loaded.2 }, [])

/-- A pair of records sharing the name "Algorithms", used to exercise the
load path on a duplicate-key collection. -/
def dupRecords : List Skill :=
  [ { skill := "Algorithms", score := 1, code_snippets := [], timestamps := [],
      iteration_depth := none, ai_flagged := none },
    { skill := "Algorithms", score := 2, code_snippets := [], timestamps := [],
      iteration_depth := none, ai_flagged := none } ]

/-! ## Claim theorems -/

/-- Claim C1 (counterexample).  The empty string passes the input regex
(every part of `/^\d*\.?\d*$/` is optional), `Number("")` is `0`, and `0` is
in range, so `handleInput("")` does NOT fail with NotNumeric: it succeeds
with `0` and calls `onChange(0)`, committing a score change — here the
first record's score drops from 7.5 to 0. -/
theorem validate_empty_accepts_zero_cex :
    validate "" = Except.ok 0 ∧
    validate "" ≠ Except.error ValidationError.notNumeric ∧
    ((handleInputCommit fetchSkillsData 0 "").getD 0 default).score = 0 ∧
    (fetchSkillsData.getD 0 default).score = 15/2 ∧ (15 : ℚ)/2 ≠ 0 := by
  have h1 : formatOk "" = true := by decide
  have h2 : jsNumber "" = some 0 := by simp [jsNumber, h1, parseDigits]
  have hv : validate "" = Except.ok 0 := by simp [validate, h1, h2]
  refine ⟨hv, by simp [hv], ?_, by norm_num [fetchSkillsData], by norm_num⟩
  simp only [handleInputCommit, hv]
  have hguard : ¬ ((0 : ℚ) < 0 ∨ (0 : ℚ) > 10) := by norm_num
  simp only [handleSkillScoreChange, if_neg hguard]
  have hlen : 0 < (fetchSkillsData.mapIdx (fun i item =>
      if i = 0 then { item with score := max 0 (min 10 (0 : ℚ)) } else item)).length := by
    simp [fetchSkillsData]
  rw [List.getD_eq_getElem _ _ hlen, List.getElem_mapIdx]
  norm_num

/-- Claim C1 (amended).  On the empty input string, validation succeeds with
the value 0 and `onChange(0)` is called, so the record's score is committed
to 0 (it is not held unchanged). -/
theorem validate_empty_commits_zero (skills : List Skill) (idx : Nat)
    (h : idx < skills.length) :
    validate "" = Except.ok 0 ∧
    ((handleInputCommit skills idx "").getD idx default).score = 0 := by
  have h1 : formatOk "" = true := by decide
  have h2 : jsNumber "" = some 0 := by simp [jsNumber, h1, parseDigits]
  have hv : validate "" = Except.ok 0 := by simp [validate, h1, h2]
  refine ⟨hv, ?_⟩
  simp only [handleInputCommit, hv]
  have hguard : ¬ ((0 : ℚ) < 0 ∨ (0 : ℚ) > 10) := by norm_num
  simp only [handleSkillScoreChange, if_neg hguard]
  have hlen : idx < (skills.mapIdx (fun i item =>
      if i = idx then { item with score := max 0 (min 10 (0 : ℚ)) } else item)).length := by
    simpa using h
  rw [List.getD_eq_getElem _ _ hlen, List.getElem_mapIdx]
  norm_num

/-- Claim C1 witness. -/
theorem validate_empty_commits_zero_witness :
    (0 : Nat) < fetchSkillsData.length ∧
    ((handleInputCommit fetchSkillsData 0 "").getD 0 default).score = 0 :=
  ⟨by decide, (validate_empty_commits_zero fetchSkillsData 0 (by decide)).2⟩

/-- Claim C2 (counterexample).  The initial-load effect installs the fetched
collection unconditionally: loading two records that share the name
"Algorithms" installs both of them and reports no error, so no duplicate-key
check is performed at load time. -/
theorem load_duplicate_installed_cex :
    (initialLoad (Except.ok dupRecords) []).1 = dupRecords ∧
    (initialLoad (Except.ok dupRecords) []).2 = "" ∧
    ¬ (dupRecords.map Skill.skill).Nodup := by
  refine ⟨rfl, rfl, ?_⟩
  decide

/-- Claim C2 (amended).  `load` never fails on duplicate names: on a
successful fetch the collection is replaced by the fetched data as given
(duplicates included) and the error is cleared; only a failed fetch leaves
the collection alone and sets the error message. -/
theorem load_installs_unconditionally (data skills : List Skill)
    (msg : String) :
    initialLoad (Except.ok data) skills = (data, "") ∧
    initialLoad (Except.error msg) skills =
      (skills, "Failed to load skills. Please try again later.") :=
  ⟨rfl, rfl⟩

/-- Claim C3 (counterexample).  A candidate above 10 is not clamped to 10:
the guard `newScore > 10` returns early, leaving the whole collection — in
particular the first record's score 7.5 — unchanged rather than setting
it to 10. -/
theorem setScore_rejects_above_ten_cex :
    handleSkillScoreChange fetchSkillsData 0 (some 11) = fetchSkillsData ∧
    ((handleSkillScoreChange fetchSkillsData 0 (some 11)).getD 0 default).score
      = 15/2 ∧
    (15 : ℚ)/2 ≠ 10 := by
  have hg : ((11 : ℚ) < 0 ∨ (11 : ℚ) > 10) := by norm_num
  have he : handleSkillScoreChange fetchSkillsData 0 (some 11) = fetchSkillsData := by
    simp only [handleSkillScoreChange, if_pos hg]
  exact ⟨he, by rw [he]; norm_num [fetchSkillsData], by norm_num⟩

/-- Claim C3 (amended).  `handleSkillScoreChange` rejects out-of-range
candidates outright (no clamping: the collection is returned unchanged) and
treats NaN as a no-op; only an in-range candidate is committed, and for such
a candidate the clamp `max 0 (min 10 q)` is the identity, so the record at
`idx` gets exactly `q` while every other record is unchanged. -/
theorem setScore_guard_policy (skills : List Skill) (idx : Nat) (q : ℚ) :
    handleSkillScoreChange skills idx none = skills ∧
    ((q < 0 ∨ q > 10) → handleSkillScoreChange skills idx (some q) = skills) ∧
    (0 ≤ q → q ≤ 10 →
      (handleSkillScoreChange skills idx (some q)).length = skills.length ∧
      (idx < skills.length →
        ((handleSkillScoreChange skills idx (some q)).getD idx default).score = q) ∧
      (∀ j, j < skills.length → j ≠ idx →
        (handleSkillScoreChange skills idx (some q)).getD j default
          = skills.getD j default)) := by
  refine ⟨rfl, fun hg => by simp only [handleSkillScoreChange, if_pos hg],
    fun h0 h10 => ?_⟩
  have hg : ¬ (q < 0 ∨ q > 10) := by push_neg; exact ⟨h0, h10⟩
  have hclamp : max 0 (min 10 q) = q := by
    rw [min_eq_right h10, max_eq_right h0]
  simp only [handleSkillScoreChange, if_neg hg]
  refine ⟨by simp, fun hidx => ?_, fun j hj hne => ?_⟩
  · have hlen : idx < (skills.mapIdx (fun i item =>
        if i = idx then { item with score := max 0 (min 10 q) } else item)).length := by
      simpa using hidx
    rw [List.getD_eq_getElem _ _ hlen, List.getElem_mapIdx]
    simp [hclamp]
  · have hlen : j < (skills.mapIdx (fun i item =>
        if i = idx then { item with score := max 0 (min 10 q) } else item)).length := by
      simpa using hj
    rw [List.getD_eq_getElem _ _ hlen, List.getElem_mapIdx,
      List.getD_eq_getElem _ _ hj]
    simp [hne]

/-- Claim C3 witness. -/
theorem setScore_guard_policy_witness :
    ((11 : ℚ) < 0 ∨ (11 : ℚ) > 10) ∧
    handleSkillScoreChange fetchSkillsData 1 (some 11) = fetchSkillsData ∧
    (0 : ℚ) ≤ 6 ∧ (6 : ℚ) ≤ 10 ∧ (1 : Nat) < fetchSkillsData.length ∧
    ((handleSkillScoreChange fetchSkillsData 1 (some 6)).getD 1 default).score = 6 :=
  ⟨by norm_num,
    (setScore_guard_policy fetchSkillsData 1 11).2.1 (by norm_num),
    by norm_num, by norm_num, by decide,
    ((setScore_guard_policy fetchSkillsData 1 6).2.2 (by norm_num)
      (by norm_num)).2.1 (by decide)⟩

/-- Claim C4 (counterexample).  The string "." passes the format regex but
`Number(".")` is NaN; the code's `isNaN` branch sets the error message
"Value must be 0–10", i.e. the OutOfRange error, not NotNumeric as the claim
states. -/
theorem validate_dot_out_of_range_cex :
    formatOk "." = true ∧ jsNumber "." = none ∧
    validate "." = Except.error ValidationError.outOfRange ∧
    validate "." ≠ Except.error ValidationError.notNumeric := by
  have h1 : formatOk "." = true := by decide
  have h2 : jsNumber "." = none := by decide
  have hv : validate "." = Except.error ValidationError.outOfRange := by
    simp [validate, h1, h2]
  exact ⟨h1, h2, hv, by simp [hv]⟩

/-- Claim C4 (amended).  Every input string that passes the format check but
parses to NaN fails with the OutOfRange error (the "Value must be 0–10"
message), not NotNumeric: the NaN case shares the range-check branch. -/
theorem validate_nan_out_of_range (s : String) (h1 : formatOk s = true)
    (h2 : jsNumber s = none) :
    validate s = Except.error ValidationError.outOfRange := by
  simp [validate, h1, h2]

/-- Claim C4 witness. -/
theorem validate_nan_out_of_range_witness :
    formatOk "." = true ∧ jsNumber "." = none ∧
    validate "." = Except.error ValidationError.outOfRange :=
  ⟨by decide, by decide, validate_nan_out_of_range "." (by decide) (by decide)⟩

/-- Claim C5 (counterexample).  The string "-1" never reaches the range
check: the minus sign fails the digits-and-dot regex, so validation fails
with NotNumeric ("Numbers only"), not OutOfRange as the claim states. -/
theorem validate_neg_one_not_numeric_cex :
    formatOk "-1" = false ∧
    validate "-1" = Except.error ValidationError.notNumeric ∧
    validate "-1" ≠ Except.error ValidationError.outOfRange := by
  have h1 : formatOk "-1" = false := by decide
  have hv : validate "-1" = Except.error ValidationError.notNumeric := by
    simp [validate, h1]
  exact ⟨h1, hv, by simp [hv]⟩

/-- Claim C5 (amended).  Among strings that pass the format check and parse
to a number, values above 10 (such as "10.5") fail with OutOfRange and the
inclusive bounds 0 and 10 are accepted; but a negative literal such as "-1"
is rejected earlier by the format check with NotNumeric, because the regex
admits no sign character (no format-valid string parses negative). -/
theorem validate_range_policy (s : String) (q : ℚ)
    (hq : jsNumber s = some q) :
    ((q < 0 ∨ q > 10) → validate s = Except.error ValidationError.outOfRange) ∧
    (0 ≤ q → q ≤ 10 → validate s = Except.ok q) ∧
    validate "-1" = Except.error ValidationError.notNumeric ∧
    validate "10" = Except.ok 10 ∧ validate "0" = Except.ok 0 := by
  have hf : formatOk s = true := by
    by_contra hc
    have hfk : formatOk s = false := by
      cases h : formatOk s
      · rfl
      · exact absurd h hc
    simp [jsNumber, hfk] at hq
  have hten : formatOk "10" = true := by decide
  have hjten : jsNumber "10" = some 10 := by
    simp [jsNumber, hten, parseDigits]
  have hzero : formatOk "0" = true := by decide
  have hjzero : jsNumber "0" = some 0 := by
    simp [jsNumber, hzero, parseDigits]
  refine ⟨fun hg => by simp only [validate, hf, hq]; simp [if_pos hg],
    fun h0 h10 => ?_, ?_, ?_, ?_⟩
  · have hg : ¬ (q < 0 ∨ q > 10) := by push_neg; exact ⟨h0, h10⟩
    simp only [validate, hf, hq]
    simp [if_neg hg]
  · have h1 : formatOk "-1" = false := by decide
    simp [validate, h1]
  · simp [validate, hten, hjten]
  · simp [validate, hzero, hjzero]

/-- Claim C5 witness. -/
theorem validate_range_policy_witness :
    jsNumber "10.5" = some (21/2) ∧ ((21 : ℚ)/2 < 0 ∨ (21 : ℚ)/2 > 10) ∧
    validate "10.5" = Except.error ValidationError.outOfRange := by
  have hf : formatOk "10.5" = true := by decide
  have hq : jsNumber "10.5" = some (21/2) := by
    simp [jsNumber, hf, parseDigits]
    norm_num
  exact ⟨hq, by norm_num,
    (validate_range_policy "10.5" (21/2) hq).1 (by norm_num)⟩

/-- The range invariant of the spec: every record's score lies in [0, 10]. -/
def scoresInRange (skills : List Skill) : Prop :=
  ∀ s ∈ skills, 0 ≤ s.score ∧ s.score ≤ 10

/-- One `handleSkillScoreChange` call preserves the score-range invariant:
rejected candidates change nothing and committed candidates are clamped
into [0, 10]. -/
theorem scoresInRange_step {skills : List Skill} (h : scoresInRange skills)
    (idx : Nat) (c : Option ℚ) :
    scoresInRange (handleSkillScoreChange skills idx c) := by
  match c with
  | none => exact h
  | some q =>
    by_cases hg : q < 0 ∨ q > 10
    · simpa only [handleSkillScoreChange, if_pos hg] using h
    · simp only [handleSkillScoreChange, if_neg hg]
      intro s hs
      obtain ⟨i, hi, heq⟩ := List.exists_of_mem_mapIdx hs
      by_cases hiidx : i = idx
      · rw [← heq, if_pos hiidx]
        push_neg at hg
        constructor
        · exact le_max_left 0 _
        · simp only [Skill.score]
          rw [max_le_iff]
          exact ⟨by norm_num, le_trans (min_le_left 10 q) le_rfl⟩
      · rw [← heq, if_neg hiidx]
        exact h _ (List.getElem_mem hi)

/-- Claim C6.  Starting from any collection whose scores all lie in [0, 10],
no sequence of `handleSkillScoreChange` calls — with arbitrary indices and
arbitrary candidates, NaN included — ever leaves a score outside [0, 10];
moreover a NaN candidate is a silent no-op and an out-of-range candidate
leaves the collection (so in particular the prior score) unchanged. -/
theorem score_invariant_preserved (skills : List Skill)
    (h : scoresInRange skills) (updates : List (Nat × Option ℚ)) :
    scoresInRange (updates.foldl
      (fun sk u => handleSkillScoreChange sk u.1 u.2) skills) ∧
    (∀ idx, handleSkillScoreChange skills idx none = skills) ∧
    (∀ idx q, (q < 0 ∨ q > 10) →
      handleSkillScoreChange skills idx (some q) = skills) := by
  refine ⟨?_, fun idx => rfl,
    fun idx q hg => by simp only [handleSkillScoreChange, if_pos hg]⟩
  induction updates generalizing skills with
  | nil => exact h
  | cons u rest ih =>
      exact ih _ (scoresInRange_step h u.1 u.2)

/-- Claim C6 witness. -/
theorem score_invariant_preserved_witness :
    scoresInRange fetchSkillsData ∧
    scoresInRange ([((0 : Nat), some (11 : ℚ)), (1, none),
        (2, some 3), (0, some (-1))].foldl
      (fun sk u => handleSkillScoreChange sk u.1 u.2) fetchSkillsData) := by
  have h : scoresInRange fetchSkillsData := by
    intro s hs
    simp [fetchSkillsData] at hs
    rcases hs with h | h | h <;> rw [h] <;> norm_num
  exact ⟨h, (score_invariant_preserved fetchSkillsData h _).1⟩

/-- Rounding to two decimals is monotone, because `round` is. -/
theorem round2_mono {a b : ℚ} (h : a ≤ b) : round2 a ≤ round2 b := by
  unfold round2
  have hr : round (100 * a) ≤ round (100 * b) := by
    rw [round_eq, round_eq]
    exact Int.floor_mono (by linarith)
  have hc : ((round (100 * a) : ℤ) : ℚ) ≤ ((round (100 * b) : ℤ) : ℚ) :=
    Int.cast_le.mpr hr
  linarith

/-- Rounding to two decimals fixes zero. -/
theorem round2_zero : round2 0 = 0 := by
  simp [round2]

/-- Taking the maximum with zero commutes with two-decimal rounding; this
is why the code's `Math.max(0, (score - 1).toFixed(2))` agrees with the
spec's `round2 (max 0 (score - 1))`. -/
theorem round2_max_zero (q : ℚ) : max 0 (round2 q) = round2 (max 0 q) := by
  rcases le_total 0 q with h | h
  · rw [max_eq_right h, max_eq_right]
    calc (0 : ℚ) = round2 0 := round2_zero.symm
    _ ≤ round2 q := round2_mono h
  · rw [max_eq_left h, round2_zero, max_eq_left]
    calc round2 q ≤ round2 0 := round2_mono h
    _ = 0 := round2_zero

/-- Claim C8.  Every trend point carries the record's name, `last` (the
chart's "current") equal to the score rounded to two decimals, and `first`
(the chart's "previous") equal to `max 0 (score - 1)` rounded to two
decimals; a record with score 0 gets `first = 0`, never a negative value. -/
theorem trendData_spec (skills : List Skill) (i : Nat)
    (h : i < skills.length) :
    ((trendData skills).getD i default).skill = (skills.getD i default).skill ∧
    ((trendData skills).getD i default).first =
      round2 (max 0 ((skills.getD i default).score - 1)) ∧
    ((trendData skills).getD i default).last =
      round2 ((skills.getD i default).score) ∧
    ((skills.getD i default).score = 0 →
      ((trendData skills).getD i default).first = 0) := by
  have hlen : i < (trendData skills).length := by
    simpa [trendData] using h
  rw [List.getD_eq_getElem _ _ hlen, List.getD_eq_getElem _ _ h]
  simp only [trendData, List.getElem_map]
  refine ⟨by simp, ?_, by simp, ?_⟩
  · exact round2_max_zero _
  · intro h0
    rw [round2_max_zero, h0]
    rw [max_eq_left (by norm_num : (0 : ℚ) - 1 ≤ 0), round2_zero]

/-- Claim C8 witness. -/
theorem trendData_spec_witness :
    (2 : Nat) < fetchSkillsData.length ∧
    ((trendData fetchSkillsData).getD 2 default).first =
      round2 (max 0 ((fetchSkillsData.getD 2 default).score - 1)) :=
  ⟨by decide, (trendData_spec fetchSkillsData 2 (by decide)).2.1⟩

/-- Wrapped snippet lines contain no page break. -/
theorem newPage_not_mem_emitLines (lines : List String) (y : Nat) :
    Op.newPage ∉ (emitLines lines y).1 := by
  induction lines generalizing y with
  | nil => simp [emitLines]
  | cons l rest ih => simp [emitLines, ih]

/-- Snippet emission contains no page break. -/
theorem newPage_not_mem_emitSnippets (split : String → List String)
    (codes : List String) (y : Nat) :
    Op.newPage ∉ (emitSnippets split codes y).1 := by
  induction codes generalizing y with
  | nil => simp [emitSnippets]
  | cons c rest ih =>
      simp [emitSnippets, List.mem_append, newPage_not_mem_emitLines, ih]

/-- The title-block score lines contain no page break. -/
theorem newPage_not_mem_emitScoreLines (points : List RadarPoint) (y : Nat) :
    Op.newPage ∉ (emitScoreLines points y).1 := by
  induction points generalizing y with
  | nil => simp [emitScoreLines]
  | cons d rest ih => simp [emitScoreLines, ih]

/-- A single detail section — from its bold header to its last body line —
contains no page break: breaks can only be inserted between sections. -/
theorem newPage_not_mem_emitSection (split : String → List String)
    (fmt : String → String) (item : Skill) (y : Nat) :
    Op.newPage ∉ (emitSection split fmt item y).1 := by
  by_cases hflag : item.ai_flagged = some true <;>
    by_cases hsnip : item.code_snippets.isEmpty <;>
      simp [emitSection, hflag, hsnip, List.mem_append,
        newPage_not_mem_emitSnippets]

/-- Claim C7.  Page-break policy of `exportPDF`: a section's operations
never contain a page break (so a header is never separated from its first
body line); a page break follows a section exactly when the cursor after it
exceeds 270 and more records remain, and then the next section starts at
the top margin 15; the section of a lone (hence last) record is emitted with
no page break after it, so a single-record export contains no page break at
all. -/
theorem exportPDF_pagination (split : String → List String)
    (fmt : String → String) :
    (∀ item y, Op.newPage ∉ (emitSection split fmt item y).1) ∧
    (∀ item y, emitSections split fmt [item] y = (emitSection split fmt item y).1) ∧
    (∀ item rest y, ¬ rest.isEmpty →
      emitSections split fmt (item :: rest) y =
        (emitSection split fmt item y).1 ++
          (if (emitSection split fmt item y).2 > 270 then
            Op.newPage :: emitSections split fmt rest 15
          else emitSections split fmt rest (emitSection split fmt item y).2)) ∧
    (∀ item y, Op.newPage ∉ emitSections split fmt [item] y) ∧
    (∀ item, Op.newPage ∉ exportPDF split fmt [item]) := by
  have hsingle : ∀ item y,
      emitSections split fmt [item] y = (emitSection split fmt item y).1 := by
    intro item y
    simp [emitSections]
  refine ⟨newPage_not_mem_emitSection split fmt, hsingle,
    fun item rest y hrest => ?_, fun item y => ?_, fun item => ?_⟩
  · by_cases hy : (emitSection split fmt item y).2 > 270
    · rw [if_pos hy]
      simp only [emitSections]
      rw [if_pos ⟨hy, hrest⟩]
    · rw [if_neg hy]
      simp only [emitSections]
      rw [if_neg (fun hc => hy hc.1)]
  · rw [hsingle]
    exact newPage_not_mem_emitSection split fmt item y
  · simp only [exportPDF, List.mem_append]
    push_neg
    refine ⟨⟨by simp, newPage_not_mem_emitScoreLines _ 25⟩, ?_⟩
    rw [hsingle]
    exact newPage_not_mem_emitSection split fmt item _

/-- Claim C7 witness. -/
theorem exportPDF_pagination_witness :
    ¬ ([fetchSkillsData.getD 1 default] : List Skill).isEmpty ∧
    emitSections (fun s => [s]) toString
        (fetchSkillsData.getD 0 default :: [fetchSkillsData.getD 1 default]) 25 =
      (emitSection (fun s => [s]) toString (fetchSkillsData.getD 0 default) 25).1 ++
        (if (emitSection (fun s => [s]) toString (fetchSkillsData.getD 0 default) 25).2 > 270
         then Op.newPage :: emitSections (fun s => [s]) toString
            [fetchSkillsData.getD 1 default] 15
         else emitSections (fun s => [s]) toString [fetchSkillsData.getD 1 default]
            (emitSection (fun s => [s]) toString (fetchSkillsData.getD 0 default) 25).2) :=
  ⟨by simp,
    (exportPDF_pagination (fun s => [s]) toString).2.2.1
      (fetchSkillsData.getD 0 default) [fetchSkillsData.getD 1 default] 25
      (by simp)⟩

/-- Claim C9.  Both derived views are empty exactly on the empty snapshot
and otherwise contain one point per record, in snapshot order: the i-th
radar point carries the i-th record's name and current score, and the i-th
trend point carries the i-th record's name. -/
theorem derived_views_shape (skills : List Skill) :
    radarData ([] : List Skill) = [] ∧ trendData ([] : List Skill) = [] ∧
    (radarData skills).length = skills.length ∧
    (trendData skills).length = skills.length ∧
    ∀ i, i < skills.length →
      (radarData skills).getD i default =
        ⟨(skills.getD i default).skill, (skills.getD i default).score⟩ ∧
      ((trendData skills).getD i default).skill =
        (skills.getD i default).skill := by
  refine ⟨rfl, rfl, by simp [radarData], by simp [trendData], fun i hi => ?_⟩
  have hr : i < (radarData skills).length := by simpa [radarData] using hi
  have ht : i < (trendData skills).length := by simpa [trendData] using hi
  rw [List.getD_eq_getElem _ _ hr, List.getD_eq_getElem _ _ ht,
    List.getD_eq_getElem _ _ hi]
  simp [radarData, trendData]

/-- Claim C9 witness. -/
theorem derived_views_shape_witness :
    (0 : Nat) < fetchSkillsData.length ∧
    (radarData fetchSkillsData).getD 0 default =
      ⟨(fetchSkillsData.getD 0 default).skill,
       (fetchSkillsData.getD 0 default).score⟩ :=
  ⟨by decide, ((derived_views_shape fetchSkillsData).2.2.2.2 0 (by decide)).1⟩

/-- Claim C10.  The export event is read-only over the dashboard state: the
state after handling it — in particular the skill collection, its order and
every record — is exactly the state before, and the drawing operations
produced are a pure function of the current skills. -/
theorem exportPDF_readonly (split : String → List String)
    (fmt : String → String) (st : DashState) :
    (step split fmt st Event.exportReport).1 = st ∧
    (step split fmt st Event.exportReport).1.skills = st.skills ∧
    (step split fmt st Event.exportReport).2 = exportPDF split fmt st.skills :=
  ⟨rfl, rfl, rfl⟩
